import Mathlib

/-!
Verification of the shield per-thread bootstrap, a shallow embedding of
`src/src/entrypoint/thread_init.c` and `src/include/shield/ssp.h`.

The C code is a straight-line thread trampoline: it installs the kernel
supplied SSP seed into the global canary `__stack_chk_guard`, runs
`__libc_init()`, seeds the shield RNG, calls `main()`, and reports the
return value through `__sys_exit`.  The stack-smashing violation handler
`__stack_chk_fail` has an ARM inline-svc variant and a portable fallback,
both reporting the fixed status 123.

The embedding records every externally observable effect (writes to the
canary, collaborator calls, terminal syscalls) as an event, paired with the
value of the canary global at the moment the effect occurs.  Machine u32
values are `Nat` reduced mod 2 ^ 32 at the call boundary, `int` values are
`Int`.
-/

namespace Shield

/-- 2 ^ 32, the modulus of the C `uint32_t` arguments. -/
def U32 : Nat := 2 ^ 32

/-- The mutable state visible to the bootstrap: the single global canary
`uint32_t __stack_chk_guard` (thread_init.c, line 18). -/
structure BootState where
  stack_chk_guard : Nat
deriving Repr, DecidableEq

/-- Observable effects of the bootstrap code.  Every access to the canary
global and every call that crosses out of the two source files is recorded:
* `guardWrite v` — assignment `__stack_chk_guard = v`;
* `guardRead` — a read of `__stack_chk_guard` by the bootstrap code (never
  emitted: the source only writes it once);
* `libcInit args` — call `__libc_init(...)` with its C argument list;
* `randSetSeed v` — call `__shield_rand_set_seed(v)`;
* `mainCall` — call of the user entrypoint `main()`;
* `sysExit s` — call `__sys_exit(s)` (terminal);
* `svcExit s` — inline `svc #SYSCALL_EXIT` supervisor call with `r0 = s`
  (terminal). -/
inductive Event where
  | guardWrite (v : Nat)
  | guardRead
  | libcInit (args : List Nat)
  | randSetSeed (v : Nat)
  | mainCall
  | sysExit (status : Int)
  | svcExit (status : Int)
deriving Repr, DecidableEq

/-- The exit status carried by a terminal event, if the event is one. -/
def exitStatus : Event → Option Int
  | Event.sysExit v => some v
  | Event.svcExit v => some v
  | _ => none

/-- An event is terminal when it reports an exit status to the kernel. -/
def isTerminal (e : Event) : Bool := (exitStatus e).isSome

def isGuardWrite : Event → Bool
  | Event.guardWrite _ => true
  | _ => false

def isGuardRead : Event → Bool
  | Event.guardRead => true
  | _ => false

def isLibcInit : Event → Bool
  | Event.libcInit _ => true
  | _ => false

def isRandSetSeed : Event → Bool
  | Event.randSetSeed _ => true
  | _ => false

def isMainCall : Event → Bool
  | Event.mainCall => true
  | _ => false

/-- The argument list of a `__libc_init` call event. -/
def libcArgs : Event → Option (List Nat)
  | Event.libcInit args => some args
  | _ => none

/-- Initial value of the canary, from `uint32_t __stack_chk_guard = 0;`
(thread_init.c, line 18). -/
def stack_chk_guard_init : Nat := 0

/-- The state at image load: the kernel has zeroified bss/data, and the
canary global carries its static initializer. -/
def imageLoadState : BootState := { stack_chk_guard := stack_chk_guard_init }

/-- Build-time architecture selector: `#ifdef __arm__` (thread_init.c,
line 20). -/
inductive Arch where
  | arm
  | other
deriving Repr, DecidableEq

/-- `__stack_chk_fail` (thread_init.c, lines 20-41).  On `__arm__` it emits a
single inline supervisor call `svc #SYSCALL_EXIT` with the immediate exit
code 123 loaded in `r0`; otherwise it falls back to the portable call
`__sys_exit(123)`.  The handler takes the (corrupted) state as argument but
its body never inspects it; both variants are noreturn, so the trace ends at
the terminal event. -/
def __stack_chk_fail : Arch → BootState → List Event
  | Arch.arm, _ => [Event.svcExit 123]
  | Arch.other, _ => [Event.sysExit 123]

/-- The header-declared variant of `__stack_chk_fail` (ssp.h, lines 10-22),
guarded by the differently-spelled macro `__ARM__`: a `static inline`
function emitting the same `svc #SYSCALL_EXIT` with `r0 = 123`. -/
def ssp_h_stack_chk_fail : BootState → List Event :=
  fun _ => [Event.svcExit 123]

/-- `_start` (thread_init.c, lines 53-72), the kernel-invoked entry
trampoline `void _start(uint32_t thread_id, uint32_t seed)`.  Statement by
statement:
* `__stack_chk_guard = seed;` — the single write to the canary;
* `__libc_init();` — runtime initializer, called with no arguments;
* `__shield_rand_set_seed(seed);` — RNG seeded with the same seed;
* `task_ret = main();` — user entrypoint, no arguments; `mainRet` is the
  value the external collaborator returns;
* `__sys_exit(task_ret);` under `#if CONFIG_WITH_SENTRY` — terminal report.
Each event is paired with the state in which it occurs.  `thread_id` is a
parameter of the C function but does not occur in its body. -/
def _start (st0 : BootState) (thread_id seed : Nat) (mainRet : Int) :
    List (Event × BootState) :=
  let st1 : BootState := { st0 with stack_chk_guard := seed % U32 }
  let task_ret : Int := mainRet
  [ (Event.guardWrite (seed % U32), st1),
    (Event.libcInit [], st1),
    (Event.randSetSeed (seed % U32), st1),
    (Event.mainCall, st1),
    (Event.sysExit task_ret, st1) ]

/-- The event trace of `_start`, forgetting the intermediate states. -/
def events (tr : List (Event × BootState)) : List Event := tr.map Prod.fst

/-- The preprocessor backend selector (thread_init.c, lines 65-69):
`#if CONFIG_WITH_SENTRY` compiles the terminal step to `__sys_exit`;
otherwise `#error "no supported backend"` aborts the build. -/
def exitBackend (config_with_sentry : Bool) : Except String (Int → Event) :=
  if config_with_sentry then Except.ok (fun v => Event.sysExit v)
  else Except.error "no supported backend"

/-- Compiling and then running `_start` under a given build configuration:
the preprocessor first resolves the backend (failing the build when none is
supported); the resulting program is the unconditional straight-line
trampoline — no configuration test survives to run time. -/
def _start_build (config_with_sentry : Bool) (st0 : BootState)
    (thread_id seed : Nat) (mainRet : Int) :
    Except String (List (Event × BootState)) :=
  match exitBackend config_with_sentry with
  | Except.error e => Except.error e
  | Except.ok exitStep =>
    let st1 : BootState := { st0 with stack_chk_guard := seed % U32 }
    let task_ret : Int := mainRet
    Except.ok
      [ (Event.guardWrite (seed % U32), st1),
        (Event.libcInit [], st1),
        (Event.randSetSeed (seed % U32), st1),
        (Event.mainCall, st1),
        (exitStep task_ret, st1) ]

/-- C1: for every seed s, `_start` writes s into the Stack Guard State
strictly before the user `main` entrypoint begins executing: the guard write
occurs at an earlier trace position than the `main` call, and at the moment
`main` is invoked the canary equals s. -/
theorem C1_guard_set_before_main (g0 thread_id seed : Nat) (v : Int)
    (h : seed < U32) :
    ∃ i j : Nat, i < j ∧
      (events (_start ⟨g0⟩ thread_id seed v)).get? i =
        some (Event.guardWrite seed) ∧
      (_start ⟨g0⟩ thread_id seed v).get? j =
        some (Event.mainCall, { stack_chk_guard := seed }) := by
  refine ⟨0, 3, by omega, ?_, ?_⟩ <;>
    simp [events, _start, Nat.mod_eq_of_lt h]

/-- Witness for C1 at thread_id = 7, seed = 0xDEADBEEF, main returning 0. -/
theorem C1_guard_set_before_main_witness :
    ∃ i j : Nat, i < j ∧
      (events (_start ⟨0⟩ 7 3735928559 0)).get? i =
        some (Event.guardWrite 3735928559) ∧
      (_start ⟨0⟩ 7 3735928559 0).get? j =
        some (Event.mainCall, { stack_chk_guard := 3735928559 }) :=
  C1_guard_set_before_main 0 7 3735928559 0 (by decide)

/-- C2: for every value v returned by `main`, `_start` issues exactly one
terminal exit report, carrying v verbatim (v ranges over all of `Int`: no
validation or range constraint), and no further event follows that report:
the exit is the last element of the trace. -/
theorem C2_single_exit_verbatim (g0 thread_id seed : Nat) (v : Int) :
    (events (_start ⟨g0⟩ thread_id seed v)).filterMap exitStatus = [v] ∧
    (events (_start ⟨g0⟩ thread_id seed v)).getLast? =
      some (Event.sysExit v) := by
  constructor <;> simp [events, _start, exitStatus]

/-- C3: `__stack_chk_fail`, on either architecture, reports exactly the
fixed status 123, its trace is the single terminal event (noreturn: nothing
executes after the report, in particular no user `main` call), and it is
deterministic: two invocations from any two (corrupted) states produce the
same trace. -/
theorem C3_fail_reports_123_noreturn (a : Arch) (st st2 : BootState) :
    (__stack_chk_fail a st).filterMap exitStatus = [123] ∧
    (__stack_chk_fail a st).length = 1 ∧
    (∃ e, (__stack_chk_fail a st).getLast? = some e ∧ isTerminal e = true) ∧
    (__stack_chk_fail a st).countP isMainCall = 0 ∧
    __stack_chk_fail a st = __stack_chk_fail a st2 := by
  cases a <;>
    exact ⟨rfl, rfl, ⟨_, rfl, rfl⟩, rfl, rfl⟩

/-- C4: the five bootstrap effects of `_start` occur strictly in order —
guard install with the seed, `__libc_init`, RNG seeding with the same seed,
`main`, terminal exit with main's return value — each completing before the
next begins: the event trace is exactly that sequence. -/
theorem C4_bootstrap_order (g0 thread_id seed : Nat) (v : Int)
    (h : seed < U32) :
    events (_start ⟨g0⟩ thread_id seed v) =
      [Event.guardWrite seed, Event.libcInit [], Event.randSetSeed seed,
       Event.mainCall, Event.sysExit v] := by
  simp [events, _start, Nat.mod_eq_of_lt h]

/-- Witness for C4 at thread_id = 1, seed = 1, main returning 42. -/
theorem C4_bootstrap_order_witness :
    events (_start ⟨0⟩ 1 1 42) =
      [Event.guardWrite 1, Event.libcInit [], Event.randSetSeed 1,
       Event.mainCall, Event.sysExit 42] :=
  C4_bootstrap_order 0 1 1 42 (by decide)

/-- C5: every `_start` invocation performs exactly one terminal call — on
the normal path the `__sys_exit` report, never the violation `svc` (filter
yields the one `sysExit`, so the two are mutually exclusive and exactly one
occurs) — the terminal call is the final event (the trampoline never returns
to its caller), and no event exists after it (every earlier event is
non-terminal). -/
theorem C5_terminal_exactly_once_last (g0 thread_id seed : Nat) (v : Int) :
    (events (_start ⟨g0⟩ thread_id seed v)).filter isTerminal =
      [Event.sysExit v] ∧
    (events (_start ⟨g0⟩ thread_id seed v)).getLast? =
      some (Event.sysExit v) ∧
    ((events (_start ⟨g0⟩ thread_id seed v)).dropLast.all
      fun e => !(isTerminal e)) = true := by
  refine ⟨?_, ?_, ?_⟩ <;>
    simp [events, _start, isTerminal, exitStatus]

/-- C6: the Stack Guard State starts zero at image load (static initializer
`= 0`), the bootstrap writes it exactly once — as its very first effect, so
before any stack-protected collaborator is invoked — setting it to the
kernel-supplied seed, and the bootstrap never reads it nor writes it a
second time. -/
theorem C6_guard_write_once (thread_id seed : Nat) (v : Int)
    (h : seed < U32) :
    imageLoadState.stack_chk_guard = 0 ∧
    (events (_start imageLoadState thread_id seed v)).countP isGuardWrite
      = 1 ∧
    (events (_start imageLoadState thread_id seed v)).countP isGuardRead
      = 0 ∧
    (events (_start imageLoadState thread_id seed v)).get? 0 =
      some (Event.guardWrite seed) := by
  refine ⟨rfl, ?_, ?_, ?_⟩ <;>
    simp [events, _start, isGuardWrite, isGuardRead, List.countP,
      List.countP.go, Nat.mod_eq_of_lt h]

/-- Witness for C6 at thread_id = 2, seed = 5, main returning 0. -/
theorem C6_guard_write_once_witness :
    imageLoadState.stack_chk_guard = 0 ∧
    (events (_start imageLoadState 2 5 0)).countP isGuardWrite = 1 ∧
    (events (_start imageLoadState 2 5 0)).countP isGuardRead = 0 ∧
    (events (_start imageLoadState 2 5 0)).get? 0 =
      some (Event.guardWrite 5) :=
  C6_guard_write_once 2 5 0 (by decide)

/-- C7 counterexample: at thread_id = 7 (seed = 1, main returning 0), the
runtime initializer is invoked exactly once and with the empty argument
list — `__libc_init();` — and 7 is not among its arguments: the thread
identifier is not forwarded to the runtime-initializer collaborator. -/
theorem C7_not_forwarded_counterexample :
    (events (_start ⟨0⟩ 7 1 0)).filterMap libcArgs = [[]] ∧
    (7 : Nat) ∉ ([] : List Nat) := by
  constructor
  · rfl
  · simp

/-- C7 amended: the thread_id parameter is received by the entry trampoline
but is not passed to the runtime initializer: `__libc_init` is invoked with
no arguments (for every thread_id, the unique `libcInit` event in the trace
carries the empty argument list). -/
theorem C7_libc_init_no_args (g0 thread_id seed : Nat) (v : Int) :
    (events (_start ⟨g0⟩ thread_id seed v)).filterMap libcArgs = [[]] := by
  simp [events, _start, libcArgs]

/-- The contract of the guard-violation handler: from every state, it
reports exactly the fixed status 123, its whole trace is that single report,
and the report is a terminal (noreturn) event. -/
def FatalExitContract (f : BootState → List Event) : Prop :=
  ∀ st : BootState,
    (f st).filterMap exitStatus = [123] ∧
    (f st).length = 1 ∧
    ∃ e, (f st).getLast? = some e ∧ isTerminal e = true

/-- C8: the fast privileged-call variant (inline `svc` with the exit syscall
identifier and fixed status 123), the portable fallback (`__sys_exit(123)`),
and the header-declared `__ARM__`-guarded variant all satisfy the identical
noreturn fixed-status-123 contract; the header variant moreover coincides
with the fast variant. -/
theorem C8_variants_identical_contract :
    FatalExitContract (__stack_chk_fail Arch.arm) ∧
    FatalExitContract (__stack_chk_fail Arch.other) ∧
    FatalExitContract ssp_h_stack_chk_fail ∧
    ∀ st : BootState, __stack_chk_fail Arch.arm st = ssp_h_stack_chk_fail st := by
  refine ⟨fun st => ⟨rfl, rfl, ⟨_, rfl, rfl⟩⟩,
    fun st => ⟨rfl, rfl, ⟨_, rfl, rfl⟩⟩,
    fun st => ⟨rfl, rfl, ⟨_, rfl, rfl⟩⟩,
    fun st => rfl⟩

/-- C9: with no supported kernel backend selected the build fails — the
preprocessor yields the fatal error "no supported backend" and no program to
run — while under the supported configuration the compiled trampoline is
exactly the unconditional straight-line `_start`: no configuration check or
failure branch survives to run time. -/
theorem C9_unsupported_backend_build_failure (st : BootState)
    (thread_id seed : Nat) (v : Int) :
    exitBackend false = Except.error "no supported backend" ∧
    _start_build false st thread_id seed v =
      Except.error "no supported backend" ∧
    _start_build true st thread_id seed v =
      Except.ok (_start st thread_id seed v) := by
  exact ⟨rfl, rfl, rfl⟩

/-- C10: the observable behavior of `_start` is independent of its
thread_id argument: for every initial state, seed and main return value,
any two thread identifiers yield the same trace — the same guard states,
the same collaborator call sequence, and the same exit status — because
thread_id never occurs in the trampoline body. -/
theorem C10_thread_id_independence (st : BootState) (t1 t2 seed : Nat)
    (v : Int) :
    _start st t1 seed v = _start st t2 seed v := rfl

end Shield
